import Mathlib

/-!
Verification of the Secure Scan Execution Engine of `parrot_mcp_server`.

Shallow embedding of the relevant parts of:
- `src/mcp_server/tools/nmap_scan.py` (`NmapValidator`, `NmapScanner`)
- `src/mcp_server/db/models.py` (`ScanResult.update_status`)
- `src/mcp_server/worker.py` (`execute_scan_task`)

Conventions of the embedding:
- Python strings are Lean `String`s; character scanning works on `String.data`.
- `datetime.utcnow()` timestamps are modelled as abstract `Nat` instants
  supplied as explicit parameters, one per call site, in call order.
- Python `None` is `Option.none`; Python dict rows are Lean structures.
- The Python standard library `ipaddress` module is modelled structurally:
  a parsed network is an `IpNetwork` value, and `Target.parsed` carries the
  result of `ipaddress.ip_network(raw.strip(), strict=False)` (`none` for a
  `ValueError`).  `overlaps` and membership follow CPython's
  `_BaseNetwork.overlaps` / `__contains__`.
- `xml.etree.ElementTree` documents are modelled as an `Xml` tree;
  `ET.fromstring` is modelled by pairing the raw stdout text with its parse
  result (`Option Xml`, `none` for `ET.ParseError`).
-/

/-! ## Python string primitives -/

/-- ASCII whitespace as recognised by Python's `str.split()` / `\s`. -/
def isPySpace (c : Char) : Bool :=
  c == ' ' || c == '\t' || c == '\n' || c == '\r' || c.toNat == 11 || c.toNat == 12

/-- `listStartsWith pat s` : the char list `s` begins with `pat`. -/
def listStartsWith : List Char → List Char → Bool
  | [], _ => true
  | _ :: _, [] => false
  | a :: as, b :: bs => a == b && listStartsWith as bs

/-- `existsAtSuffix p s` : the predicate `p` holds at some suffix of `s`
(including `s` itself and the empty suffix). Models `re.search` position
scanning. -/
def existsAtSuffix (p : List Char → Bool) : List Char → Bool
  | [] => p []
  | c :: rest => p (c :: rest) || existsAtSuffix p rest

/-- Substring containment, modelling `re.search` on a literal pattern. -/
def containsSub (pat : List Char) (s : List Char) : Bool :=
  existsAtSuffix (fun t => listStartsWith pat t) s

/-- Match `\s*/` at the head of the list (greedy whitespace then a slash). -/
def spacesThenSlash : List Char → Bool
  | [] => false
  | c :: rest => if c == '/' then true else if isPySpace c then spacesThenSlash rest else false

/-- Match `.*pat` at the head of the list: any run of non-newline characters
followed by an occurrence of `pat` (regex `.` does not cross a newline). -/
def dotStarThen (pat : List Char) : List Char → Bool
  | [] => listStartsWith pat []
  | c :: rest => listStartsWith pat (c :: rest) || (c != '\n' && dotStarThen pat rest)

/-- Python `str.split()` with no separator: split on runs of whitespace,
dropping empty pieces.  `cur` is the reversed current word. -/
def wordsAux (cur : List Char) : List Char → List (List Char)
  | [] => if cur.isEmpty then [] else [cur.reverse]
  | c :: rest =>
    if isPySpace c then
      if cur.isEmpty then wordsAux [] rest else cur.reverse :: wordsAux [] rest
    else wordsAux (c :: cur) rest

/-- Python `args.split()`. -/
def pySplit (s : String) : List String :=
  (wordsAux [] s.data).map (fun w => String.mk w)

/-- Digit-sequence value for Python `int()`: digits with single underscores
allowed only between digits. `acc` is the value of the digits read so far. -/
def digitTail (acc : Nat) : List Char → Option Nat
  | [] => some acc
  | '_' :: c :: rest => if c.isDigit then digitTail (acc * 10 + (c.toNat - 48)) rest else none
  | c :: rest => if c.isDigit then digitTail (acc * 10 + (c.toNat - 48)) rest else none

/-- Parse a nonempty digit sequence (with legal underscores). -/
def digitsVal : List Char → Option Nat
  | [] => none
  | c :: rest => if c.isDigit then digitTail (c.toNat - 48) rest else none

/-- Model of Python `int(s)` for decimal text: optional surrounding
whitespace, optional sign, then digits; `none` models `ValueError`. -/
def pyInt (s : String) : Option Int :=
  let t := ((s.data.dropWhile isPySpace).reverse.dropWhile isPySpace).reverse
  match t with
  | '+' :: rest => (digitsVal rest).map (fun n => (n : Int))
  | '-' :: rest => (digitsVal rest).map (fun n => -(n : Int))
  | rest => (digitsVal rest).map (fun n => (n : Int))

/-! ## `ipaddress` model (CPython stdlib, structural) -/

/-- A parsed IP network: family, network address value (host bits already
masked off by `strict=False` parsing), and the routing prefix length. -/
inductive IpNetwork where
  | v4 (addr : Nat) (pfx : Nat)
  | v6 (addr : Nat) (pfx : Nat)
deriving DecidableEq, Repr

/-- IP version number, as in CPython `_version`. -/
def IpNetwork.version : IpNetwork → Nat
  | .v4 _ _ => 4
  | .v6 _ _ => 6

/-- Total bit width of the address family. -/
def IpNetwork.bits : IpNetwork → Nat
  | .v4 _ _ => 32
  | .v6 _ _ => 128

def IpNetwork.pfxLen : IpNetwork → Nat
  | .v4 _ p => p
  | .v6 _ p => p

def IpNetwork.addrVal : IpNetwork → Nat
  | .v4 a _ => a
  | .v6 a _ => a

/-- Number of host bits. -/
def IpNetwork.hostBits (n : IpNetwork) : Nat := n.bits - n.pfxLen

/-- CPython `num_addresses`. -/
def IpNetwork.numAddresses (n : IpNetwork) : Nat := 2 ^ n.hostBits

/-- CPython `network_address` (mask applied to the stored value). -/
def IpNetwork.netAddr (n : IpNetwork) : Nat :=
  (n.addrVal / 2 ^ n.hostBits) * 2 ^ n.hostBits

/-- CPython `broadcast_address`. -/
def IpNetwork.bcastAddr (n : IpNetwork) : Nat :=
  n.netAddr + (n.numAddresses - 1)

/-- An IP address value tagged with its version, for `in` checks. -/
def IpNetwork.netAddress (n : IpNetwork) : Nat × Nat := (n.version, n.netAddr)

def IpNetwork.bcastAddress (n : IpNetwork) : Nat × Nat := (n.version, n.bcastAddr)

/-- CPython `_BaseNetwork.__contains__` for an address: false across
families, else `addr & netmask == network_address`. -/
def IpNetwork.containsAddr (net : IpNetwork) (a : Nat × Nat) : Bool :=
  if a.1 != net.version then false
  else (a.2 / 2 ^ net.hostBits) * 2 ^ net.hostBits == net.netAddr

/-- CPython `_BaseNetwork.overlaps`. -/
def IpNetwork.overlaps (self other : IpNetwork) : Bool :=
  other.containsAddr self.netAddress || other.containsAddr self.bcastAddress ||
    self.containsAddr other.netAddress || self.containsAddr other.bcastAddress

/-! ## `NmapValidator` (nmap_scan.py lines 33-158) -/

/-- `NmapValidator.FORBIDDEN_RANGES`: loopback `127.0.0.0/8`, link-local
`169.254.0.0/16`, multicast `224.0.0.0/4`, reserved `240.0.0.0/4`. -/
def FORBIDDEN_RANGES : List IpNetwork :=
  [ .v4 (127 * 2 ^ 24) 8,
    .v4 (169 * 2 ^ 24 + 254 * 2 ^ 16) 16,
    .v4 (224 * 2 ^ 24) 4,
    .v4 (240 * 2 ^ 24) 4 ]

def MAX_IPV4_HOSTS : Nat := 256

def MAX_IPV6_HOSTS : Nat := 65536

/-- A scan target: the raw string and the result of
`ipaddress.ip_network(raw.strip(), strict=False)` (`none` = `ValueError`). -/
structure Target where
  raw : String
  parsed : Option IpNetwork

/-- Structured model of the validation error messages (f-strings in the
source, carrying the interpolated data). -/
inductive ScanError where
  /-- "Invalid IP/CIDR format: ..." -/
  | invalidFormat
  /-- "Target ... overlaps forbidden range {forbidden}" -/
  | forbiddenRange (forbidden : IpNetwork)
  /-- "Network too large: {count} hosts (max {max})" -/
  | rangeTooLarge (count maxHosts : Nat)
  /-- "Invalid scan type. Allowed: ..." -/
  | invalidScanType
  /-- "Forbidden argument pattern detected: {pattern}" -/
  | forbiddenPattern (pattern : String)
deriving DecidableEq, Repr

/-- `NmapValidator.validate_target` (lines 55-95): `none` means accepted,
`some e` carries the rejection. -/
def validate_target (t : Target) : Option ScanError :=
  match t.parsed with
  | none => some .invalidFormat
  | some network =>
    match FORBIDDEN_RANGES.find? (fun forbidden => network.overlaps forbidden) with
    | some forbidden => some (.forbiddenRange forbidden)
    | none =>
      match network with
      | .v4 _ _ =>
        if network.numAddresses > MAX_IPV4_HOSTS then
          some (.rangeTooLarge network.numAddresses MAX_IPV4_HOSTS)
        else none
      | .v6 _ _ =>
        if network.numAddresses > MAX_IPV6_HOSTS then
          some (.rangeTooLarge network.numAddresses MAX_IPV6_HOSTS)
        else none

/-- `NmapValidator.validate_scan_type` (lines 97-113). -/
def validate_scan_type (scanType : String) : Option ScanError :=
  let allowedTypes := ["default", "quick", "full", "stealth", "os", "vuln", "custom"]
  if allowedTypes.contains scanType then none else some .invalidScanType

/-- Pattern 1: `--script.*\.\./`. -/
def matchScriptTraversal (s : List Char) : Bool :=
  existsAtSuffix
    (fun t => listStartsWith "--script".data t && dotStarThen "../".data (t.drop 8)) s

/-- Patterns 4-6: `-oN\s*/`, `-oG\s*/`, `-oX\s*/`. -/
def matchTagSpacesSlash (tag : List Char) (s : List Char) : Bool :=
  existsAtSuffix (fun t => listStartsWith tag t && spacesThenSlash (t.drop tag.length)) s

/-- Pattern 9: `[\$` backtick `]` — the shell metacharacters `$` and
backtick (character code 96). -/
def matchDollarBacktick (s : List Char) : Bool :=
  s.any (fun c => c == '$' || c.toNat == 96)

/-- Pattern 10: `[;&|<>]` — the shell operators. -/
def matchShellOps (s : List Char) : Bool :=
  s.any (fun c => c == ';' || c == '&' || c == '|' || c == '<' || c == '>')

/-- `forbidden_patterns` (lines 127-138): the pattern source text paired
with its `re.search` semantics. -/
def forbiddenPatterns : List (String × (String → Bool)) :=
  [ ("--script.*\\.\\./", fun s => matchScriptTraversal s.data),
    ("--datadir", fun s => containsSub "--datadir".data s.data),
    ("--servicedb", fun s => containsSub "--servicedb".data s.data),
    ("-oN\\s*/", fun s => matchTagSpacesSlash "-oN".data s.data),
    ("-oG\\s*/", fun s => matchTagSpacesSlash "-oG".data s.data),
    ("-oX\\s*/", fun s => matchTagSpacesSlash "-oX".data s.data),
    ("--resume", fun s => containsSub "--resume".data s.data),
    ("--stylesheet", fun s => containsSub "--stylesheet".data s.data),
    ("[\\$`]", fun s => matchDollarBacktick s.data),
    ("[;&|<>]", fun s => matchShellOps s.data) ]

/-- `NmapValidator.sanitize_custom_args` (lines 115-158).  The for-loop over
`forbidden_patterns` returns at the first match; the final per-argument loop
appends the argument in both of its branches, so it is the identity on the
split list. -/
def sanitize_custom_args (args : String) : Except ScanError (List String) :=
  match forbiddenPatterns.find? (fun pm => pm.2 args) with
  | some pm => .error (.forbiddenPattern pm.1)
  | none =>
    let argsList := pySplit args
    let safeArgs := argsList.foldl
      (fun acc arg => if arg.startsWith "-" then acc ++ [arg] else acc ++ [arg]) []
    .ok safeArgs

/-! ## `NmapScanner` profiles and command preparation (lines 161-248) -/

/-- The `"default"` profile argument list (`SCAN_PROFILES["default"]`). -/
def defaultProfileArgs : List String := ["-T4", "-Pn"]

/-- `NmapScanner.SCAN_PROFILES` (lines 165-172), as a partial lookup. -/
def SCAN_PROFILES : String → Option (List String)
  | "quick" => some ["-T4", "-F"]
  | "default" => some defaultProfileArgs
  | "full" => some ["-sS", "-sV", "-T4", "-p-"]
  | "stealth" => some ["-sS", "-T2", "-f"]
  | "os" => some ["-O", "--osscan-guess"]
  | "vuln" => some ["-sV", "--script=vuln", "-T4"]
  | _ => none

/-- Python truthiness of the `custom_args : Optional[str]` parameter:
`None` and the empty string are falsy. -/
def pyTruthy : Option String → Bool
  | none => false
  | some s => !(s == "")

/-- `NmapScanner.validate_and_prepare_scan` (lines 200-248): validate the
target, validate the scan type, pick custom-sanitized or profile arguments
(`SCAN_PROFILES.get(scan_type, SCAN_PROFILES["default"])`), then always
append `-oX -` and finally the target. -/
def validate_and_prepare_scan (nmapPath : String) (t : Target) (scanType : String)
    (customArgs : Option String) : Except ScanError (List String) :=
  match validate_target t with
  | some e => .error e
  | none =>
    match validate_scan_type scanType with
    | some e => .error e
    | none =>
      match
        (if scanType == "custom" && pyTruthy customArgs then
          sanitize_custom_args (customArgs.getD "")
        else
          .ok ((SCAN_PROFILES scanType).getD defaultProfileArgs)) with
      | .error e => .error e
      | .ok args => .ok ([nmapPath] ++ args ++ ["-oX", "-"] ++ [t.raw])

/-! ## XML result parsing (lines 314-453) -/

/-- An `xml.etree.ElementTree` element: tag, attribute dict, children. -/
inductive Xml where
  | elem (tag : String) (attrs : List (String × String)) (children : List Xml)

def Xml.tagOf : Xml → String
  | .elem t _ _ => t

def Xml.attrsOf : Xml → List (String × String)
  | .elem _ a _ => a

def Xml.childrenOf : Xml → List Xml
  | .elem _ _ c => c

/-- `element.get(key)`: attribute lookup. -/
def Xml.attr (x : Xml) (key : String) : Option String :=
  (x.attrsOf.find? (fun kv => kv.1 == key)).map (fun kv => kv.2)

/-- `element.find(tag)`: first direct child with the tag. -/
def Xml.findChild (x : Xml) (tag : String) : Option Xml :=
  x.childrenOf.find? (fun c => c.tagOf == tag)

/-- `element.findall(tag)`: all direct children with the tag. -/
def Xml.findAll (x : Xml) (tag : String) : List Xml :=
  x.childrenOf.filter (fun c => c.tagOf == tag)

/-- The `service` sub-dict built in `_parse_port` (lines 440-447). -/
structure ServiceData where
  name : Option String
  product : Option String
  version : Option String
  extrainfo : Option String
deriving DecidableEq, Repr

/-- The per-port dict built in `_parse_port`; `service = none` models the
initial empty dict `{}` left when no `service` element exists. -/
structure PortData where
  protocol : Option String
  portid : Int
  state : Option String
  service : Option ServiceData
deriving DecidableEq, Repr

/-- The per-host dict built in `_parse_host`.  `addresses` entries are
`(addr, addrtype)`, `hostnames` entries `(name, type)`, `osGuess`
`(name, accuracy)`. -/
structure HostData where
  status : Option String
  addresses : List (Option String × Option String)
  hostnames : List (Option String × Option String)
  ports : List PortData
  osGuess : Option (Option String × Option String)
deriving DecidableEq, Repr

/-- The `stats` sub-dict of `parse_nmap_xml` (lines 330-335 defaults). -/
structure Stats where
  hostsUp : Nat := 0
  hostsDown : Nat := 0
  totalHosts : Nat := 0
  totalPorts : Nat := 0
deriving DecidableEq, Repr

/-- The successful `parse_nmap_xml` result dict. -/
structure NmapResults where
  scanInfo : List (String × String)
  hosts : List HostData
  stats : Stats
deriving DecidableEq, Repr

/-- Outcome of `parse_nmap_xml`: a results dict, or the `{"error": ...}`
dict produced when `ET.fromstring` raises `ET.ParseError`. -/
inductive ParseOutcome where
  | ok (r : NmapResults)
  | parseError
deriving DecidableEq, Repr

/-- `NmapScanner._parse_port` (lines 424-453).  `int(port_element.get("portid"))`
raises (`TypeError` on a missing attribute, `ValueError` on non-numeric
text); the surrounding `except` then returns the falsy `{}`, modelled as
`none` — `_parse_host` drops such ports via its `if port_data:` check. -/
def parse_port (e : Xml) : Option PortData :=
  match e.attr "portid" with
  | none => none
  | some s =>
    match pyInt s with
    | none => none
    | some n =>
      some
        { protocol := e.attr "protocol",
          portid := n,
          state := (e.findChild "state").bind (fun st => st.attr "state"),
          service := (e.findChild "service").map (fun sv =>
            { name := sv.attr "name", product := sv.attr "product",
              version := sv.attr "version", extrainfo := sv.attr "extrainfo" }) }

/-- `NmapScanner._parse_host` (lines 368-422).  All attribute and child
accesses are total, so the `except` fallback to `{}` is unreachable here;
the function is modelled as total. -/
def parse_host (e : Xml) : HostData :=
  { status := (e.findChild "status").bind (fun st => st.attr "state"),
    addresses := (e.findAll "address").map (fun a => (a.attr "addr", a.attr "addrtype")),
    hostnames :=
      match e.findChild "hostnames" with
      | none => []
      | some hs => (hs.findAll "hostname").map (fun h => (h.attr "name", h.attr "type")),
    ports :=
      match e.findChild "ports" with
      | none => []
      | some ps => (ps.findAll "port").filterMap parse_port,
    osGuess := (e.findChild "os").bind (fun os =>
      (os.findChild "osmatch").map (fun m => (m.attr "name", m.attr "accuracy"))) }

/-- The stats loop body of `parse_nmap_xml` (lines 349-355): each host bumps
`hosts_up` or `hosts_down` and adds its port count to `total_ports`. -/
def statsStep (st : Stats) (h : HostData) : Stats :=
  let st :=
    if h.status == some "up" then { st with hostsUp := st.hostsUp + 1 }
    else { st with hostsDown := st.hostsDown + 1 }
  { st with totalPorts := st.totalPorts + h.ports.length }

/-- `NmapScanner.parse_nmap_xml` (lines 314-366). The input `none` models a
top-level document on which `ET.fromstring` raises `ET.ParseError`; the
host dicts from `_parse_host` are always truthy, so every host element
contributes an entry. -/
def parse_nmap_xml : Option Xml → ParseOutcome
  | none => .parseError
  | some root =>
    let scanInfo :=
      match root.findChild "scaninfo" with
      | none => []
      | some si => si.attrsOf
    let hosts := (root.findAll "host").map parse_host
    let stats := hosts.foldl statsStep {}
    .ok { scanInfo := scanInfo, hosts := hosts, stats := { stats with totalHosts := hosts.length } }

/-! ## Process execution (`execute_scan`, lines 250-312) and `scan` -/

/-- One completed `subprocess.run`: exit status, captured stdout text, the
`ET.fromstring` parse of that text (`none` = `ET.ParseError`), stderr. -/
structure ProcResult where
  returncode : Int
  stdout : String
  stdoutXml : Option Xml
  stderr : String

/-- Behaviour of the spawned process: it either ran to completion or hit
`subprocess.TimeoutExpired`. -/
inductive ProcBehavior where
  | ran (r : ProcResult)
  | timedOut

/-- Structured model of the error strings stored in the result dicts. -/
inductive ErrMsg where
  /-- a `ValidationError` message from `validate_and_prepare_scan` -/
  | validation (e : ScanError)
  /-- "Scan timeout after {timeout} seconds" -/
  | timeoutMsg (timeout : Nat)
  /-- `result.stderr or "Nmap scan failed"` on nonzero exit -/
  | toolFailure (stderr : String)
  /-- the worker's `result.get("error", "Unknown error")` default -/
  | unknownError
deriving DecidableEq, Repr

/-- The dict returned by `NmapScanner.execute_scan` / `NmapScanner.scan`
(the fields the worker reads; the `target`/`scan_type` echo keys are
metadata only and omitted). -/
structure ScanDict where
  success : Bool
  error : Option ErrMsg := none
  rawOutput : Option String := none
  parsedResults : Option ParseOutcome := none
  durationSeconds : Nat := 0
deriving DecidableEq

/-- `NmapScanner.execute_scan` (lines 250-312); wall-clock durations are
abstracted into the `dur` parameter.  On exit code 0 the result is always
`success: True`, with `parse_nmap_xml`'s outcome stored verbatim. -/
def executeScan (timeout dur : Nat) : ProcBehavior → ScanDict
  | .timedOut =>
    { success := false, error := some (.timeoutMsg timeout), durationSeconds := timeout }
  | .ran r =>
    if r.returncode != 0 then
      { success := false,
        error := some (.toolFailure (if r.stderr == "" then "Nmap scan failed" else r.stderr)),
        durationSeconds := dur }
    else
      { success := true, rawOutput := some r.stdout,
        parsedResults := some (parse_nmap_xml r.stdoutXml), durationSeconds := dur }

/-- The dict `NmapScanner.scan` returns when validation fails
(lines 470-476). -/
def validationFailureDict (e : ScanError) : ScanDict :=
  { success := false, error := some (.validation e) }

/-- `NmapScanner.scan` (lines 455-485): validate and prepare, then hand the
assembled command to the process executor.  The executor is a parameter so
that "the executor is never invoked" is expressible as independence of the
result from it. -/
def scanRun (nmapPath : String) (timeout dur : Nat)
    (executor : List String → ProcBehavior) (t : Target) (scanType : String)
    (customArgs : Option String) : ScanDict :=
  match validate_and_prepare_scan nmapPath t scanType customArgs with
  | .error e => validationFailureDict e
  | .ok command => executeScan timeout dur (executor command)

/-! ## `ScanResult` lifecycle (models.py lines 71-162) -/

/-- The lifecycle-relevant columns of the `scan_results` row.  Defaults
mirror the column defaults of a freshly inserted row. -/
structure ScanRecord where
  status : String := "queued"
  startedAt : Option Nat := none
  completedAt : Option Nat := none
  durationSeconds : Option Int := none
  errorMessage : Option ErrMsg := none
  rawOutput : Option String := none
  parsedResults : Option ParseOutcome := none
  hostsUp : Nat := 0
  portsFound : Nat := 0
  vulnerabilitiesFound : Nat := 0
  updatedAt : Option Nat := none
deriving DecidableEq

/-- The timing block of `ScanResult.update_status` (lines 152-157):
`RUNNING` sets `started_at` only when it is unset (`datetime` objects are
always truthy, so `not self.started_at` is exactly `isNone`); `COMPLETED`
and `FAILED` set `completed_at` and, when `started_at` is set, the
duration as their difference.  No other status touches the timestamps. -/
def setTimes (r : ScanRecord) (status : String) (now : Nat) : ScanRecord :=
  if status == "running" && r.startedAt.isNone then
    { r with startedAt := some now }
  else if status == "completed" || status == "failed" then
    match r.startedAt with
    | some t0 =>
      { r with completedAt := some now, durationSeconds := some ((now : Int) - (t0 : Int)) }
    | none => { r with completedAt := some now }
  else r

/-- The trailing `if error_message:` of `update_status` (lines 159-160); a
present message is a nonempty string, hence truthy. -/
def setErrMsg (r : ScanRecord) (em : Option ErrMsg) : ScanRecord :=
  match em with
  | some e => { r with errorMessage := some e }
  | none => r

/-- `ScanResult.update_status` (lines 147-162). -/
def update_status (r : ScanRecord) (status : String) (em : Option ErrMsg) (now : Nat) :
    ScanRecord :=
  setErrMsg (setTimes { r with status := status, updatedAt := some now } status now) em

/-- A freshly created scan row (`SubmitScan`): column defaults. -/
def freshScan : ScanRecord := {}

/-! ## Worker task (`execute_scan_task`, worker.py lines 80-179) -/

/-- `parsed.get("stats", {})` then per-key `.get(_, 0)` defaults: the
parse-error dict `{"error": ...}` has no `stats` key, so every counter
reads as 0. -/
def statsOfOpt : Option ParseOutcome → Stats
  | some (.ok r) => r.stats
  | _ => {}

/-- `parsed.get("hosts", [])`: empty for the parse-error dict. -/
def hostsOfOpt : Option ParseOutcome → List HostData
  | some (.ok r) => r.hosts
  | _ => []

/-- `if service.get("extrainfo"):` — truthy means the service dict exists
and its `extrainfo` value is a nonempty string. -/
def svcExtraTruthy (p : PortData) : Bool :=
  match p.service with
  | none => false
  | some sv =>
    match sv.extrainfo with
    | none => false
    | some s => !(s == "")

/-- The nested vulnerability-count loops of `execute_scan_task`
(worker.py lines 138-144). -/
def countVulns (hosts : List HostData) : Nat :=
  hosts.foldl
    (fun acc h => h.ports.foldl (fun a p => if svcExtraTruthy p then a + 1 else a) acc) 0

/-- All ports of all hosts, in order — the iteration domain of the
vulnerability-count loops. -/
def allPorts (hosts : List HostData) : List PortData :=
  hosts.foldr (fun h acc => h.ports ++ acc) []

/-- `execute_scan_task` (worker.py lines 80-179) after the scan record has
been fetched: transition to `running`, run the scan (its result dict is the
`result` argument), then either store results and complete, or fail with
the error message.  `t1` and `t2` are the two `utcnow()` instants of the
two `update_status` calls.  (`scan.task_id` bookkeeping and the
always-true `isinstance(parsed, dict)` guard are omitted; storing
`json.dumps(parsed)` is modelled as storing the parsed value itself.) -/
def execute_scan_task (scan0 : ScanRecord) (scanType : String) (result : ScanDict)
    (t1 t2 : Nat) : ScanRecord :=
  let scan1 := update_status scan0 "running" none t1
  if result.success then
    let stats := statsOfOpt result.parsedResults
    let scan2 :=
      { scan1 with
        rawOutput := some (result.rawOutput.getD ""),
        parsedResults := result.parsedResults,
        durationSeconds := some ((result.durationSeconds : Int)),
        hostsUp := stats.hostsUp,
        portsFound := stats.totalPorts,
        vulnerabilitiesFound :=
          if scanType == "vuln" then countVulns (hostsOfOpt result.parsedResults)
          else scan1.vulnerabilitiesFound }
    update_status scan2 "completed" none t2
  else
    update_status scan1 "failed" (some (result.error.getD .unknownError)) t2

/-! ## Invariant predicates and concrete example values -/

/-- The family size ceiling used by `validate_target`'s size check. -/
def maxHostsFor : IpNetwork → Nat
  | .v4 _ _ => MAX_IPV4_HOSTS
  | .v6 _ _ => MAX_IPV6_HOSTS

/-- Terminal status as the spec words it: completed, failed or cancelled. -/
def statusTerminal3 (s : String) : Bool :=
  s == "completed" || s == "failed" || s == "cancelled"

/-- The statuses for which `update_status` actually records `completed_at`. -/
def statusTerminal2 (s : String) : Bool :=
  s == "completed" || s == "failed"

/-- The claimed record invariant: terminal status (all three) iff
`completed_at` is set. -/
def completedAtTerminal3Inv (r : ScanRecord) : Prop :=
  statusTerminal3 r.status = true ↔ r.completedAt.isSome = true

/-- The invariant the code maintains: status in {completed, failed} iff
`completed_at` is set. -/
def completedAtInv (r : ScanRecord) : Prop :=
  statusTerminal2 r.status = true ↔ r.completedAt.isSome = true

/-- The denylisted shell metacharacters of the claim: backtick (code 96),
`$`, `;`, `&`, `|`, `<`, `>`. -/
def isShellMeta (c : Char) : Bool :=
  c == '$' || c.toNat == 96 || c == ';' || c == '&' || c == '|' || c == '<' || c == '>'

def containsShellMeta (s : String) : Bool :=
  s.data.any isShellMeta

/-- `192.168.1.5`, parsed as a /32 network (private, allowed). -/
def net192 : IpNetwork := .v4 (192 * 2 ^ 24 + 168 * 2 ^ 16 + 1 * 2 ^ 8 + 5) 32

def target192 : Target := { raw := "192.168.1.5", parsed := some net192 }

/-- `127.0.0.1`, parsed as a /32 network (inside the loopback range). -/
def net127 : IpNetwork := .v4 (127 * 2 ^ 24 + 1) 32

def target127 : Target := { raw := "127.0.0.1", parsed := some net127 }

/-- `10.0.0.0/8`: private, non-forbidden, 2^24 addresses. -/
def net10slash8 : IpNetwork := .v4 (10 * 2 ^ 24) 8

def target10slash8 : Target := { raw := "10.0.0.0/8", parsed := some net10slash8 }

/-- A `port` element with `portid="0"`, as a probe tool could emit. -/
def portZeroElem : Xml :=
  .elem "port" [("protocol", "tcp"), ("portid", "0")] [.elem "state" [("state", "open")] []]

/-- A `port` element with no `portid` attribute at all. -/
def noPortidElem : Xml := .elem "port" [("protocol", "tcp")] []

/-- A `port` element whose `portid` attribute is present but non-numeric
(`int()` raises `ValueError` on it). -/
def nonNumericPortElem : Xml :=
  .elem "port" [("protocol", "tcp"), ("portid", "abc")] []

/-- A well-formed document containing the `portid="0"` port on one up host. -/
def exDoc : Xml :=
  .elem "nmaprun" []
    [ .elem "host" []
        [ .elem "status" [("state", "up")] [],
          .elem "ports" [] [portZeroElem] ] ]

/-- A clean process exit whose stdout is not parsable as XML at the top
level. -/
def unparsableProc : ProcResult :=
  { returncode := 0, stdout := "This is not XML", stdoutXml := none, stderr := "" }

/-- A service entry carrying a nonempty `extrainfo` annotation. -/
def svcWithInfo : ServiceData :=
  { name := some "http", product := some "httpd", version := none,
    extrainfo := some "outdated" }

def portWithInfo : PortData :=
  { protocol := some "tcp", portid := 80, state := some "open", service := some svcWithInfo }

def portNoInfo : PortData :=
  { protocol := some "tcp", portid := 22, state := some "open", service := none }

def hostTwoPorts : HostData :=
  { status := some "up", addresses := [], hostnames := [],
    ports := [portWithInfo, portNoInfo], osGuess := none }

def vulnResults : NmapResults :=
  { scanInfo := [],
    hosts := [hostTwoPorts],
    stats := { hostsUp := 1, hostsDown := 0, totalHosts := 1, totalPorts := 2 } }

/-- A successful scan result dict over `vulnResults`. -/
def vulnDict : ScanDict :=
  { success := true, rawOutput := some "raw", parsedResults := some (.ok vulnResults),
    durationSeconds := 3 }

/-! ## Helper lemmas about `update_status` -/

/-- `setTimes` only touches the timestamp fields. -/
theorem setTimes_fields (r : ScanRecord) (st : String) (now : Nat) :
    (setTimes r st now).status = r.status ∧
    (setTimes r st now).errorMessage = r.errorMessage ∧
    (setTimes r st now).rawOutput = r.rawOutput ∧
    (setTimes r st now).parsedResults = r.parsedResults ∧
    (setTimes r st now).hostsUp = r.hostsUp ∧
    (setTimes r st now).portsFound = r.portsFound ∧
    (setTimes r st now).vulnerabilitiesFound = r.vulnerabilitiesFound ∧
    (setTimes r st now).updatedAt = r.updatedAt := by
  unfold setTimes
  split
  · exact ⟨rfl, rfl, rfl, rfl, rfl, rfl, rfl, rfl⟩
  · split
    · split
      · exact ⟨rfl, rfl, rfl, rfl, rfl, rfl, rfl, rfl⟩
      · exact ⟨rfl, rfl, rfl, rfl, rfl, rfl, rfl, rfl⟩
    · exact ⟨rfl, rfl, rfl, rfl, rfl, rfl, rfl, rfl⟩

/-- `setErrMsg` only touches `errorMessage`. -/
theorem setErrMsg_fields (r : ScanRecord) (em : Option ErrMsg) :
    (setErrMsg r em).status = r.status ∧
    (setErrMsg r em).startedAt = r.startedAt ∧
    (setErrMsg r em).completedAt = r.completedAt ∧
    (setErrMsg r em).durationSeconds = r.durationSeconds ∧
    (setErrMsg r em).rawOutput = r.rawOutput ∧
    (setErrMsg r em).parsedResults = r.parsedResults ∧
    (setErrMsg r em).hostsUp = r.hostsUp ∧
    (setErrMsg r em).portsFound = r.portsFound ∧
    (setErrMsg r em).vulnerabilitiesFound = r.vulnerabilitiesFound := by
  unfold setErrMsg
  cases em
  · exact ⟨rfl, rfl, rfl, rfl, rfl, rfl, rfl, rfl, rfl⟩
  · exact ⟨rfl, rfl, rfl, rfl, rfl, rfl, rfl, rfl, rfl⟩

theorem update_status_status (r : ScanRecord) (st : String) (em : Option ErrMsg) (t : Nat) :
    (update_status r st em t).status = st := by
  unfold update_status
  rw [(setErrMsg_fields _ em).1, (setTimes_fields _ st t).1]

theorem update_status_rawOutput (r : ScanRecord) (st : String) (em : Option ErrMsg) (t : Nat) :
    (update_status r st em t).rawOutput = r.rawOutput := by
  unfold update_status
  rw [(setErrMsg_fields _ em).2.2.2.2.1, (setTimes_fields _ st t).2.2.1]

theorem update_status_parsedResults (r : ScanRecord) (st : String) (em : Option ErrMsg)
    (t : Nat) : (update_status r st em t).parsedResults = r.parsedResults := by
  unfold update_status
  rw [(setErrMsg_fields _ em).2.2.2.2.2.1, (setTimes_fields _ st t).2.2.2.1]

theorem update_status_vulnerabilitiesFound (r : ScanRecord) (st : String)
    (em : Option ErrMsg) (t : Nat) :
    (update_status r st em t).vulnerabilitiesFound = r.vulnerabilitiesFound := by
  unfold update_status
  rw [(setErrMsg_fields _ em).2.2.2.2.2.2.2.2, (setTimes_fields _ st t).2.2.2.2.2.2.1]

/-- Transitioning to `running` sets `started_at` only when it was unset. -/
theorem update_status_running_startedAt (r : ScanRecord) (em : Option ErrMsg) (t : Nat) :
    (update_status r "running" em t).startedAt = some (r.startedAt.getD t) := by
  unfold update_status
  rw [(setErrMsg_fields _ em).2.1]
  unfold setTimes
  cases h : r.startedAt <;> simp [h]

/-- Transitioning to `running` never touches `completed_at`. -/
theorem update_status_running_completedAt (r : ScanRecord) (em : Option ErrMsg) (t : Nat) :
    (update_status r "running" em t).completedAt = r.completedAt := by
  unfold update_status
  rw [(setErrMsg_fields _ em).2.2.1]
  unfold setTimes
  cases h : r.startedAt <;> simp [h]

/-- Transitioning to `completed` records `completed_at`. -/
theorem update_status_completed_completedAt (r : ScanRecord) (em : Option ErrMsg) (t : Nat) :
    (update_status r "completed" em t).completedAt = some t := by
  unfold update_status
  rw [(setErrMsg_fields _ em).2.2.1]
  unfold setTimes
  cases h : r.startedAt <;> simp [h]

/-- Transitioning to `failed` records `completed_at`. -/
theorem update_status_failed_completedAt (r : ScanRecord) (em : Option ErrMsg) (t : Nat) :
    (update_status r "failed" em t).completedAt = some t := by
  unfold update_status
  rw [(setErrMsg_fields _ em).2.2.1]
  unfold setTimes
  cases h : r.startedAt <;> simp [h]

/-- Transitioning to `cancelled` does NOT record `completed_at`: the
`elif` of `update_status` only lists `COMPLETED` and `FAILED`. -/
theorem update_status_cancelled_completedAt (r : ScanRecord) (em : Option ErrMsg) (t : Nat) :
    (update_status r "cancelled" em t).completedAt = r.completedAt := by
  unfold update_status
  rw [(setErrMsg_fields _ em).2.2.1]
  unfold setTimes
  cases h : r.startedAt <;> simp [h]

/-! ## Helper lemmas for the vulnerability count -/

theorem portFoldCount (l : List PortData) (a : Nat) :
    l.foldl (fun b p => if svcExtraTruthy p then b + 1 else b) a
      = a + l.countP svcExtraTruthy := by
  induction l generalizing a with
  | nil => simp
  | cons p t ih =>
    rw [List.foldl_cons, ih, List.countP_cons]
    cases h : svcExtraTruthy p
    · simp [h]
    · simp [h]
      omega

theorem hostFoldCount (hosts : List HostData) (a : Nat) :
    hosts.foldl
        (fun acc h => h.ports.foldl (fun b p => if svcExtraTruthy p then b + 1 else b) acc) a
      = a + (allPorts hosts).countP svcExtraTruthy := by
  induction hosts generalizing a with
  | nil => simp [allPorts]
  | cons h t ih =>
    rw [List.foldl_cons, ih, portFoldCount]
    have : allPorts (h :: t) = h.ports ++ allPorts t := rfl
    rw [this, List.countP_append]
    omega

/-- The worker's nested count loops count exactly the ports whose service
entry carries a truthy `extrainfo`. -/
theorem countVulns_eq_countP (hosts : List HostData) :
    countVulns hosts = (allPorts hosts).countP svcExtraTruthy := by
  unfold countVulns
  rw [hostFoldCount]
  omega

/-! ## Helper lemmas for the sanitizer -/

/-- A string containing one of the claim's shell metacharacters matches
denylist pattern 9 or denylist pattern 10. -/
theorem shellMeta_match (s : String) (h : containsShellMeta s = true) :
    matchDollarBacktick s.data = true ∨ matchShellOps s.data = true := by
  unfold containsShellMeta at h
  rw [List.any_eq_true] at h
  obtain ⟨c, hc, hm⟩ := h
  unfold isShellMeta at hm
  simp only [Bool.or_eq_true] at hm
  rcases hm with ((((((h1 | h2) | h3) | h4) | h5) | h6) | h7)
  · exact Or.inl (List.any_eq_true.mpr ⟨c, hc, by simp [h1]⟩)
  · exact Or.inl (List.any_eq_true.mpr ⟨c, hc, by simp [h2]⟩)
  · exact Or.inr (List.any_eq_true.mpr ⟨c, hc, by simp [h3]⟩)
  · exact Or.inr (List.any_eq_true.mpr ⟨c, hc, by simp [h4]⟩)
  · exact Or.inr (List.any_eq_true.mpr ⟨c, hc, by simp [h5]⟩)
  · exact Or.inr (List.any_eq_true.mpr ⟨c, hc, by simp [h6]⟩)
  · exact Or.inr (List.any_eq_true.mpr ⟨c, hc, by simp [h7]⟩)

/-- Pattern 9 of `forbidden_patterns` is in the list. -/
theorem pattern9_mem :
    ("[\\$`]", fun s => matchDollarBacktick s.data) ∈ forbiddenPatterns := by
  unfold forbiddenPatterns
  exact List.mem_cons_of_mem _ (List.mem_cons_of_mem _ (List.mem_cons_of_mem _
    (List.mem_cons_of_mem _ (List.mem_cons_of_mem _ (List.mem_cons_of_mem _
      (List.mem_cons_of_mem _ (List.mem_cons_of_mem _ (List.mem_cons_self _ _))))))))

/-- Pattern 10 of `forbidden_patterns` is in the list. -/
theorem pattern10_mem :
    ("[;&|<>]", fun s => matchShellOps s.data) ∈ forbiddenPatterns := by
  unfold forbiddenPatterns
  exact List.mem_cons_of_mem _ (List.mem_cons_of_mem _ (List.mem_cons_of_mem _
    (List.mem_cons_of_mem _ (List.mem_cons_of_mem _ (List.mem_cons_of_mem _
      (List.mem_cons_of_mem _ (List.mem_cons_of_mem _ (List.mem_cons_of_mem _
        (List.mem_cons_self _ _)))))))))

/-! ## Claim C1 -/

/-- C1 counterexample: the three-way equivalence `status ∈ {completed,
failed, cancelled} ⇔ completedAt set` holds of a fresh `queued` record but
is destroyed by `update_status("cancelled")` — the exact transition the
cancel endpoint performs on a queued scan — because the `elif` in
`update_status` records `completed_at` only for `completed` and `failed`. -/
theorem C1_counterexample :
    completedAtTerminal3Inv freshScan ∧
      ¬ completedAtTerminal3Inv (update_status freshScan "cancelled" none 5) := by
  unfold completedAtTerminal3Inv
  constructor
  · decide
  · decide

/-- C1 (amended): for a record in a non-terminal status (`queued` or
`running`, the only statuses from which the application cancels), every
`update_status` transition to `running`, `completed`, `failed` or
`cancelled` preserves the two-way equivalence `status ∈ {completed, failed}
⇔ completedAt set`; the `cancelled` transition leaves `completed_at`
untouched (hence unset), so a cancelled record is terminal without a
completion timestamp. -/
theorem C1_amended_theorem (r : ScanRecord) (em : Option ErrMsg) (t : Nat)
    (hs : r.status = "queued" ∨ r.status = "running")
    (hinv : completedAtInv r) :
    completedAtInv (update_status r "running" em t) ∧
    completedAtInv (update_status r "completed" em t) ∧
    completedAtInv (update_status r "failed" em t) ∧
    completedAtInv (update_status r "cancelled" em t) ∧
    (update_status r "cancelled" em t).completedAt = r.completedAt := by
  have hterm : statusTerminal2 r.status = false := by
    rcases hs with h | h <;> rw [h] <;> rfl
  have hnone : r.completedAt = none := by
    cases hc : r.completedAt with
    | none => rfl
    | some a =>
      exfalso
      have hsm : r.completedAt.isSome = true := by rw [hc]; rfl
      have := hinv.mpr hsm
      rw [hterm] at this
      exact Bool.noConfusion this
  refine ⟨?_, ?_, ?_, ?_, ?_⟩
  · unfold completedAtInv
    rw [update_status_status, update_status_running_completedAt, hnone]
    simp [statusTerminal2]
  · unfold completedAtInv
    rw [update_status_status, update_status_completed_completedAt]
    simp [statusTerminal2]
  · unfold completedAtInv
    rw [update_status_status, update_status_failed_completedAt]
    simp [statusTerminal2]
  · unfold completedAtInv
    rw [update_status_status, update_status_cancelled_completedAt, hnone]
    simp [statusTerminal2]
  · exact update_status_cancelled_completedAt r em t

/-- Witness for C1: the amended preservation property instantiated on a
fresh queued record at time 3. -/
theorem C1_witness :
    completedAtInv (update_status freshScan "running" none 3) ∧
    completedAtInv (update_status freshScan "completed" none 3) ∧
    completedAtInv (update_status freshScan "failed" none 3) ∧
    completedAtInv (update_status freshScan "cancelled" none 3) ∧
    (update_status freshScan "cancelled" none 3).completedAt = freshScan.completedAt :=
  C1_amended_theorem freshScan none 3 (Or.inl rfl) (by unfold completedAtInv; decide)

/-! ## Claim C7 -/

/-- C7: the `running` transition is idempotent on `started_at`: it becomes
`some` of the old value when one was recorded, and `some now` otherwise,
and a second `running` transition leaves it unchanged. -/
theorem C7_theorem (r : ScanRecord) (em em2 : Option ErrMsg) (t t2 : Nat) :
    (update_status r "running" em t).startedAt = some (r.startedAt.getD t) ∧
    (update_status (update_status r "running" em t) "running" em2 t2).startedAt =
      (update_status r "running" em t).startedAt := by
  constructor
  · exact update_status_running_startedAt r em t
  · rw [update_status_running_startedAt, update_status_running_startedAt r em t]
    rfl

/-! ## Claim C4 -/

/-- C4: any parsed target overlapping a forbidden range is rejected by
`validate_target` with a forbidden-range error (the first forbidden range
it overlaps), and `validate_and_prepare_scan` forwards that rejection for
every scan profile and custom-argument choice. -/
theorem C4_theorem (t : Target) (n f : IpNetwork) (hp : t.parsed = some n)
    (hf : f ∈ FORBIDDEN_RANGES) (hov : n.overlaps f = true) :
    ∃ g, g ∈ FORBIDDEN_RANGES ∧ n.overlaps g = true ∧
      validate_target t = some (.forbiddenRange g) ∧
      ∀ (nmapPath scanType : String) (customArgs : Option String),
        validate_and_prepare_scan nmapPath t scanType customArgs =
          .error (.forbiddenRange g) := by
  have hsome : (FORBIDDEN_RANGES.find? (fun fb => n.overlaps fb)).isSome := by
    rw [List.find?_isSome]
    exact ⟨f, hf, hov⟩
  obtain ⟨g, hfind⟩ := Option.isSome_iff_exists.mp hsome
  have hval : validate_target t = some (.forbiddenRange g) := by
    unfold validate_target
    rw [hp]
    dsimp only
    rw [hfind]
  refine ⟨g, List.mem_of_find?_eq_some hfind, List.find?_some hfind, hval, ?_⟩
  intro nmapPath scanType customArgs
  unfold validate_and_prepare_scan
  rw [hval]

/-- Witness for C4: the loopback host `127.0.0.1` is rejected. -/
theorem C4_witness :
    ∃ g, g ∈ FORBIDDEN_RANGES ∧ net127.overlaps g = true ∧
      validate_target target127 = some (.forbiddenRange g) ∧
      ∀ (nmapPath scanType : String) (customArgs : Option String),
        validate_and_prepare_scan nmapPath target127 scanType customArgs =
          .error (.forbiddenRange g) :=
  C4_theorem target127 net127 (.v4 (127 * 2 ^ 24) 8) rfl (by decide) (by decide)

/-! ## Claim C5 -/

/-- C5: for a syntactically valid target overlapping no forbidden range,
`validate_target` rejects with the range-too-large error exactly when the
address count exceeds the family ceiling (256 for IPv4, 65536 for IPv6);
in particular `10.0.0.0/8` (2^24 addresses) is rejected as too large. -/
theorem C5_theorem :
    (∀ (t : Target) (n : IpNetwork), t.parsed = some n →
        (∀ f ∈ FORBIDDEN_RANGES, n.overlaps f = false) →
        (validate_target t = some (.rangeTooLarge n.numAddresses (maxHostsFor n)) ↔
          n.numAddresses > maxHostsFor n)) ∧
      validate_target target10slash8 =
        some (.rangeTooLarge net10slash8.numAddresses (maxHostsFor net10slash8)) := by
  constructor
  · intro t n hp hforb
    have hnone : FORBIDDEN_RANGES.find? (fun fb => n.overlaps fb) = none := by
      rw [List.find?_eq_none]
      intro f hf
      rw [hforb f hf]
      exact Bool.false_ne_true
    unfold validate_target
    rw [hp]
    dsimp only
    rw [hnone]
    dsimp only
    cases n with
    | v4 a p =>
      by_cases hgt : IpNetwork.numAddresses (.v4 a p) > MAX_IPV4_HOSTS
      · rw [if_pos hgt]
        simp [maxHostsFor, hgt]
      · rw [if_neg hgt]
        simp [maxHostsFor]
        omega
    | v6 a p =>
      by_cases hgt : IpNetwork.numAddresses (.v6 a p) > MAX_IPV6_HOSTS
      · rw [if_pos hgt]
        simp [maxHostsFor, hgt]
      · rw [if_neg hgt]
        simp [maxHostsFor]
        omega
  · decide

/-- Witness for C5: the general part applied to `10.0.0.0/8`. -/
theorem C5_witness :
    validate_target target10slash8 =
      some (.rangeTooLarge net10slash8.numAddresses (maxHostsFor net10slash8)) :=
  (C5_theorem.1 target10slash8 net10slash8 rfl (by decide)).mpr (by decide)

/-! ## Claim C10 -/

/-- C10: `"custom"` is not a key of `SCAN_PROFILES`, so a `custom` scan
with absent or empty custom arguments silently falls back to the
`"default"` profile arguments `-T4 -Pn` (via
`SCAN_PROFILES.get(scan_type, SCAN_PROFILES["default"])`) instead of
failing or producing an empty argument set. -/
theorem C10_theorem (nmapPath : String) (t : Target)
    (hv : validate_target t = none) :
    SCAN_PROFILES "custom" = none ∧
    validate_and_prepare_scan nmapPath t "custom" none =
      .ok ([nmapPath] ++ defaultProfileArgs ++ ["-oX", "-"] ++ [t.raw]) ∧
    validate_and_prepare_scan nmapPath t "custom" (some "") =
      .ok ([nmapPath] ++ defaultProfileArgs ++ ["-oX", "-"] ++ [t.raw]) := by
  refine ⟨rfl, ?_, ?_⟩
  · unfold validate_and_prepare_scan
    rw [hv]
    rfl
  · unfold validate_and_prepare_scan
    rw [hv]
    rfl

/-- Witness for C10: instantiated on the valid target `192.168.1.5`. -/
theorem C10_witness :
    SCAN_PROFILES "custom" = none ∧
    validate_and_prepare_scan "/usr/bin/nmap" target192 "custom" none =
      .ok (["/usr/bin/nmap"] ++ defaultProfileArgs ++ ["-oX", "-"] ++ [target192.raw]) ∧
    validate_and_prepare_scan "/usr/bin/nmap" target192 "custom" (some "") =
      .ok (["/usr/bin/nmap"] ++ defaultProfileArgs ++ ["-oX", "-"] ++ [target192.raw]) :=
  C10_theorem "/usr/bin/nmap" target192 (by decide)

/-! ## Claim C6 -/

/-- C6: whenever `validate_and_prepare_scan` accepts, the assembled command
is `[toolPath, ...args, "-oX", "-", target]` — the XML-to-stdout output
flag always follows the caller-influenced arguments and the target is the
final token — where `args` is either the sanitizer's output (custom scan
with truthy custom arguments) or the profile table lookup with its default
fallback. -/
theorem C6_theorem (nmapPath : String) (t : Target) (scanType : String)
    (customArgs : Option String) (cmd : List String)
    (h : validate_and_prepare_scan nmapPath t scanType customArgs = .ok cmd) :
    ∃ args, cmd = [nmapPath] ++ args ++ ["-oX", "-"] ++ [t.raw] ∧
      ((scanType = "custom" ∧ pyTruthy customArgs = true ∧
          sanitize_custom_args (customArgs.getD "") = .ok args) ∨
        (¬ (scanType = "custom" ∧ pyTruthy customArgs = true) ∧
          args = (SCAN_PROFILES scanType).getD defaultProfileArgs)) := by
  unfold validate_and_prepare_scan at h
  split at h
  · exact absurd h (by simp)
  · split at h
    · exact absurd h (by simp)
    · split at h
      · exact absurd h (by simp)
      · rename_i args heq
        refine ⟨args, by exact (Except.ok.injEq _ _).mp h.symm ▸ rfl, ?_⟩
        split at heq
        · rename_i hcond
          rw [Bool.and_eq_true] at hcond
          exact Or.inl ⟨eq_of_beq hcond.1, hcond.2, heq⟩
        · rename_i hcond
          rw [Bool.and_eq_true] at hcond
          refine Or.inr ⟨?_, ((Except.ok.injEq _ _).mp heq).symm⟩
          intro ⟨h1, h2⟩
          exact hcond ⟨by rw [h1]; rfl, h2⟩

/-- Witness for C6: a `quick` scan of `192.168.1.5` assembles
`[/usr/bin/nmap, -T4, -F, -oX, -, 192.168.1.5]`. -/
theorem C6_witness :
    ∃ args, ["/usr/bin/nmap", "-T4", "-F", "-oX", "-", "192.168.1.5"] =
        ["/usr/bin/nmap"] ++ args ++ ["-oX", "-"] ++ [target192.raw] ∧
      (("quick" = "custom" ∧ pyTruthy (none : Option String) = true ∧
          sanitize_custom_args ((none : Option String).getD "") = .ok args) ∨
        (¬ ("quick" = "custom" ∧ pyTruthy (none : Option String) = true) ∧
          args = (SCAN_PROFILES "quick").getD defaultProfileArgs)) :=
  C6_theorem "/usr/bin/nmap" target192 "quick" none
    ["/usr/bin/nmap", "-T4", "-F", "-oX", "-", "192.168.1.5"] (by rfl)

/-! ## Claim C2 -/

/-- C2: any custom-argument string containing a denylisted shell
metacharacter (backtick, `$`, `;`, `&`, `|`, `<`, `>`) is rejected by the
sanitizer with a forbidden-pattern error naming a matching denylist
pattern, and for any valid target the whole `scan` pipeline returns exactly
that validation failure for every possible process executor — i.e. the
executor is never consulted. -/
theorem C2_theorem (s : String) (hm : containsShellMeta s = true) (t : Target)
    (hv : validate_target t = none) :
    ∃ pm, pm ∈ forbiddenPatterns ∧ pm.2 s = true ∧
      sanitize_custom_args s = .error (.forbiddenPattern pm.1) ∧
      ∀ (nmapPath : String) (timeout dur : Nat)
        (executor : List String → ProcBehavior),
        scanRun nmapPath timeout dur executor t "custom" (some s) =
          validationFailureDict (.forbiddenPattern pm.1) := by
  have hex : ∃ pm ∈ forbiddenPatterns, pm.2 s = true := by
    rcases shellMeta_match s hm with h | h
    · exact ⟨_, pattern9_mem, h⟩
    · exact ⟨_, pattern10_mem, h⟩
  have hsome : (forbiddenPatterns.find? (fun pm => pm.2 s)).isSome := by
    rw [List.find?_isSome]
    obtain ⟨pm, hmem, hp⟩ := hex
    exact ⟨pm, hmem, hp⟩
  obtain ⟨pm, hfind⟩ := Option.isSome_iff_exists.mp hsome
  have hsan : sanitize_custom_args s = .error (.forbiddenPattern pm.1) := by
    unfold sanitize_custom_args
    rw [hfind]
  have hne : (s == "") = false := by
    cases hbe : s == ""
    · rfl
    · exfalso
      have hse : s = "" := eq_of_beq hbe
      rw [hse] at hm
      exact Bool.noConfusion hm
  have hcond : (("custom" == "custom") && pyTruthy (some s)) = true := by
    simp [pyTruthy, hne]
  have hprep : ∀ nmapPath : String,
      validate_and_prepare_scan nmapPath t "custom" (some s) =
        .error (.forbiddenPattern pm.1) := by
    intro nmapPath
    unfold validate_and_prepare_scan
    rw [hv]
    dsimp only
    rw [show validate_scan_type "custom" = none from rfl]
    dsimp only
    rw [if_pos hcond]
    dsimp only [Option.getD]
    rw [hsan]
  have hpm := List.find?_some hfind
  refine ⟨pm, List.mem_of_find?_eq_some hfind, hpm, hsan, ?_⟩
  intro nmapPath timeout dur executor
  unfold scanRun
  rw [hprep nmapPath]

/-- Witness for C2: the custom argument string with a semicolon against the
valid target `192.168.1.5`. -/
theorem C2_witness :
    ∃ pm, pm ∈ forbiddenPatterns ∧ pm.2 "-T4; rm -rf /" = true ∧
      sanitize_custom_args "-T4; rm -rf /" = .error (.forbiddenPattern pm.1) ∧
      ∀ (nmapPath : String) (timeout dur : Nat)
        (executor : List String → ProcBehavior),
        scanRun nmapPath timeout dur executor target192 "custom"
            (some "-T4; rm -rf /") =
          validationFailureDict (.forbiddenPattern pm.1) :=
  C2_theorem "-T4; rm -rf /" (by decide) target192 (by decide)

/-! ## Claim C3 -/

/-- C3 counterexample: a clean exit whose stdout is unparsable at the top
level drives the record to `completed`, not `failed` — `execute_scan`
reports `success: True` whenever the exit code is 0, storing the parse
error inside `parsed_results`, and the worker's success branch then marks
the scan completed (with `rawOutput` persisted). -/
theorem C3_counterexample :
    (execute_scan_task freshScan "default"
        (executeScan 300 7 (.ran unparsableProc)) 1 2).status = "completed" ∧
    ¬ (execute_scan_task freshScan "default"
        (executeScan 300 7 (.ran unparsableProc)) 1 2).status = "failed" ∧
    (execute_scan_task freshScan "default"
        (executeScan 300 7 (.ran unparsableProc)) 1 2).rawOutput =
      some "This is not XML" ∧
    (execute_scan_task freshScan "default"
        (executeScan 300 7 (.ran unparsableProc)) 1 2).parsedResults =
      some .parseError := by
  refine ⟨?_, ?_, ?_, ?_⟩
  · decide
  · decide
  · decide
  · decide

/-- C3 (amended): when the tool exits 0 but its output document is
unparsable at the top level, the scan record transitions to the
`completed` terminal state (not `failed`), with `rawOutput` persisted and
`parsedResults` recording the parse error. -/
theorem C3_amended_theorem (scan0 : ScanRecord) (scanType : String) (pr : ProcResult)
    (timeout dur t1 t2 : Nat) (hrc : pr.returncode = 0) (hxml : pr.stdoutXml = none) :
    (execute_scan_task scan0 scanType (executeScan timeout dur (.ran pr)) t1 t2).status =
      "completed" ∧
    (execute_scan_task scan0 scanType (executeScan timeout dur (.ran pr)) t1 t2).rawOutput =
      some pr.stdout ∧
    (execute_scan_task scan0 scanType (executeScan timeout dur (.ran pr)) t1 t2).parsedResults =
      some .parseError := by
  have hdict : executeScan timeout dur (.ran pr) =
      { success := true, rawOutput := some pr.stdout,
        parsedResults := some .parseError, durationSeconds := dur } := by
    unfold executeScan
    dsimp only
    rw [hrc, hxml]
    rfl
  rw [hdict]
  unfold execute_scan_task
  split
  · refine ⟨?_, ?_, ?_⟩
    · rw [update_status_status]
    · rw [update_status_rawOutput]
      rfl
    · rw [update_status_parsedResults]
  · rename_i hns
    exact absurd rfl hns

/-- Witness for C3's amended statement: the concrete unparsable-output
process result on a fresh record. -/
theorem C3_witness :
    (execute_scan_task freshScan "quick"
        (executeScan 300 7 (.ran unparsableProc)) 1 2).status = "completed" ∧
    (execute_scan_task freshScan "quick"
        (executeScan 300 7 (.ran unparsableProc)) 1 2).rawOutput =
      some unparsableProc.stdout ∧
    (execute_scan_task freshScan "quick"
        (executeScan 300 7 (.ran unparsableProc)) 1 2).parsedResults =
      some .parseError :=
  C3_amended_theorem freshScan "quick" unparsableProc 300 7 1 2 rfl rfl

/-! ## Claim C8 -/

/-- C8: after a successful scan the stored `vulnerabilities_found` equals
the number of port service entries in the parsed result carrying a truthy
(nonempty) `extrainfo` annotation when the profile is `"vuln"`, and is
left at its prior value for every other profile. -/
theorem C8_theorem (scan0 : ScanRecord) (scanType : String) (result : ScanDict)
    (t1 t2 : Nat) (hs : result.success = true) :
    (execute_scan_task scan0 scanType result t1 t2).vulnerabilitiesFound =
      if scanType = "vuln" then
        (allPorts (hostsOfOpt result.parsedResults)).countP svcExtraTruthy
      else scan0.vulnerabilitiesFound := by
  unfold execute_scan_task
  split
  · rw [update_status_vulnerabilitiesFound]
    dsimp only
    rw [update_status_vulnerabilitiesFound]
    cases hbe : scanType == "vuln"
    · have hne : ¬ scanType = "vuln" := by
        intro hh
        rw [hh] at hbe
        exact Bool.noConfusion hbe
      simp [hbe, hne]
    · have heq : scanType = "vuln" := eq_of_beq hbe
      simp [hbe, heq, countVulns_eq_countP]
  · rename_i hns
    exact absurd hs hns

/-- Witness for C8: a successful `vuln` scan over one host with two ports,
one of which carries a nonempty `extrainfo`. -/
theorem C8_witness :
    (execute_scan_task freshScan "vuln" vulnDict 1 2).vulnerabilitiesFound =
      if "vuln" = "vuln" then
        (allPorts (hostsOfOpt vulnDict.parsedResults)).countP svcExtraTruthy
      else freshScan.vulnerabilitiesFound :=
  C8_theorem freshScan "vuln" vulnDict 1 2 rfl

/-! ## Claim C9 -/

/-- C9 counterexample: `_parse_port` performs no range check on `portid`,
so a document carrying `portid="0"` yields a parsed port whose number is 0,
outside 1-65535. -/
theorem C9_counterexample :
    ¬ (∀ h2 ∈ hostsOfOpt (some (parse_nmap_xml (some exDoc))),
        ∀ p ∈ h2.ports, 1 ≤ p.portid ∧ p.portid ≤ 65535) := by
  decide

/-- C9 (amended): a parsed `PortResult`'s `portNumber` is exactly the
integer Python `int()` extracts from the `portid` attribute, with no range
restriction; a port element whose `portid` attribute is present but
non-numeric (`int()` fails, i.e. `pyInt` returns `none`), or missing
altogether, is dropped.  The three parts are exhaustive: the attribute is
present and parses, present and fails to parse, or absent. -/
theorem C9_amended_theorem :
    (∀ (e : Xml) (s : String) (n : Int), e.attr "portid" = some s →
        pyInt s = some n → ∃ pd, parse_port e = some pd ∧ pd.portid = n) ∧
    (∀ (e : Xml) (s : String), e.attr "portid" = some s → pyInt s = none →
        parse_port e = none) ∧
    (∀ e : Xml, e.attr "portid" = none → parse_port e = none) := by
  refine ⟨?_, ?_, ?_⟩
  · intro e s n ha hn
    refine ⟨{ protocol := e.attr "protocol", portid := n,
              state := (e.findChild "state").bind (fun st => st.attr "state"),
              service := (e.findChild "service").map (fun sv =>
                { name := sv.attr "name", product := sv.attr "product",
                  version := sv.attr "version",
                  extrainfo := sv.attr "extrainfo" }) }, ?_, rfl⟩
    unfold parse_port
    rw [ha]
    dsimp only
    rw [hn]
  · intro e s ha hn
    unfold parse_port
    rw [ha]
    dsimp only
    rw [hn]
  · intro e ha
    unfold parse_port
    rw [ha]

/-- Witness for C9's amended statement: the `portid="0"` element parses to
port number 0, a `portid="abc"` element is dropped, and an element without
`portid` is dropped. -/
theorem C9_witness :
    (∃ pd, parse_port portZeroElem = some pd ∧ pd.portid = 0) ∧
      parse_port nonNumericPortElem = none ∧
      parse_port noPortidElem = none :=
  ⟨C9_amended_theorem.1 portZeroElem "0" 0 (by decide) (by decide),
    C9_amended_theorem.2.1 nonNumericPortElem "abc" (by decide) (by decide),
    C9_amended_theorem.2.2 noPortidElem (by decide)⟩
